import Mathlib

/-!
Shallow embedding of `src/TestPEProjects/PEParser.Tests.DllARM64EC`
(`PEParser.Tests.DllARM64EC.cpp` and `stdafx.h`).

C++ language exceptions are modelled by an `Except CppExc` result: `.ok`
means the operation returned normally, `.error` means an exception escaped
the operation.  Structured (SEH) faults are modelled by a separate
`SEHFault` type, since SEH is a distinct mechanism from C++ exceptions.
Diagnostic `printf` output is collected in a `List String`.  A `try` body
that may `return` early yields `Option Bool`: `some b` is an early
`return b`, `none` means control fell through the block.
-/

/-- Embeds the class `DllARM64EC_CppxdataUsage` from `stdafx.h`: a single
boolean member `m_bShouldThrow`, default-initialized to `true`. -/
structure DllARM64EC_CppxdataUsage where
  m_bShouldThrow : Bool := true
deriving DecidableEq, Repr

/-- Embeds the C++ exception values thrown in the source: `std::exception`
and `std::runtime_error` (which derives from `std::exception`), each
carrying its `what()` message. -/
inductive CppExc where
  | stdException (what : String)
  | stdRuntimeError (what : String)
deriving DecidableEq, Repr

/-- Embeds `what()` on a caught exception object. -/
def CppExc.what : CppExc → String
  | .stdException s => s
  | .stdRuntimeError s => s

/-- Embeds which dynamic exception types a `catch (std::exception&)` clause
matches: every exception in the model, since `std::runtime_error` derives
from `std::exception`. -/
def catchesStdException : CppExc → Bool := fun _ => true

/-- Embeds which dynamic exception types a `catch (std::runtime_error&)`
clause matches. -/
def catchesRuntimeError : CppExc → Bool
  | .stdRuntimeError _ => true
  | .stdException _ => false

/-- Embeds a C++ `try { body } catch (T& e) { handler e }` construct.  The
body yields `Option Bool` (early return or fall-through) together with its
diagnostic output; an exception not matched by the clause propagates. -/
def cppTryCatch (body : Except CppExc (Option Bool) × List String)
    (canCatch : CppExc → Bool)
    (handler : CppExc → Except CppExc (Option Bool) × List String) :
    Except CppExc (Option Bool) × List String :=
  match body with
  | (.ok v, out) => (.ok v, out)
  | (.error e, out) =>
    if canCatch e then
      let h := handler e
      (h.1, out ++ h.2)
    else (.error e, out)

/-- Embeds `DllARM64EC_CppxdataUsage::MaybeThrow`: inside a `try`, throw
`std::exception("ARM64EC dummy exception")` when `m_bShouldThrow` is set;
the `catch (std::exception&)` clause in the same frame prints the message
and returns `false`; falling through the `try` returns `true`. -/
def DllARM64EC_CppxdataUsage.MaybeThrow (self : DllARM64EC_CppxdataUsage) :
    Except CppExc Bool × List String :=
  let tryResult := cppTryCatch
    (if self.m_bShouldThrow then
      (.error (.stdException "ARM64EC dummy exception"), [])
    else
      (.ok none, []))
    catchesStdException
    (fun except => (.ok (some false), ["Caught exception: " ++ except.what]))
  match tryResult with
  | (.ok (some b), out) => (.ok b, out)
  | (.ok none, out) => (.ok true, out)
  | (.error e, out) => (.error e, out)

/-- Embeds an SEH (structured exception handling) fault: the access
violation raised by the deliberate null-pointer write. -/
inductive SEHFault where
  | accessViolation
deriving DecidableEq, Repr

deriving instance DecidableEq for Except

/-- Observable outcome of `MaybeThrowWithSEH`: the function result (an
escaping fault would be `.error`), the diagnostic output, and whether each
of the two `__except` handlers ran. -/
structure SEHOutcome where
  result : Except SEHFault Bool
  output : List String
  innerHandlerRan : Bool
  outerHandlerRan : Bool
deriving DecidableEq, Repr

/-- Embeds `DllARM64EC_CppxdataUsage::MaybeThrowWithSEH`: a local one-byte
array `a = { '0' }`; an outer `__try`/`__except(EXCEPTION_EXECUTE_HANDLER)`
wrapping an inner one; the inner `__try` body performs a null-pointer write
(an access violation) when `m_bShouldThrow` is set.  Each `__except`
handler prints a message and returns `false`; falling through both blocks
prints `a[0]` and returns `true`.  `EXCEPTION_EXECUTE_HANDLER` means the
filter accepts every fault, so a handler runs exactly when its `__try`
body's result is a fault. -/
def DllARM64EC_CppxdataUsage.MaybeThrowWithSEH
    (self : DllARM64EC_CppxdataUsage) : SEHOutcome :=
  let a : List Char := ['0']
  let innerBody : Except SEHFault (Option Bool) :=
    if self.m_bShouldThrow then .error .accessViolation else .ok none
  let inner : (Except SEHFault (Option Bool) × List String) × Bool :=
    match innerBody with
    | .ok v => ((.ok v, []), false)
    | .error _ =>
        ((.ok (some false), ["ARM64EC SEH inner exception handled"]), true)
  let outer : (Except SEHFault (Option Bool) × List String) × Bool :=
    match inner.1 with
    | (.ok v, out) => ((.ok v, out), false)
    | (.error _, out) =>
        ((.ok (some false), out ++ ["ARM64EC SEH outer exception handled"]),
          true)
  match outer.1 with
  | (.ok (some b), out) =>
      { result := .ok b, output := out,
        innerHandlerRan := inner.2, outerHandlerRan := outer.2 }
  | (.ok none, out) =>
      { result := .ok true,
        output := out ++
          ["ARM64EC SEH no exception: " ++ String.mk [a.getD 0 ' ']],
        innerHandlerRan := inner.2, outerHandlerRan := outer.2 }
  | (.error e, out) =>
      { result := .error e, output := out,
        innerHandlerRan := inner.2, outerHandlerRan := outer.2 }

/-- Embeds `DllARM64EC_CppxdataUsage::MaybeThrowNested`: an inner `try`
throws `std::runtime_error("ARM64EC nested exception")` when
`m_bShouldThrow` is set; the inner `catch (std::runtime_error&)` prints the
message and throws a fresh `std::exception("ARM64EC re-throw from
nested")`, which propagates to the outer `catch (std::exception&)`; that
handler prints and returns `false`.  Falling through returns `true`. -/
def DllARM64EC_CppxdataUsage.MaybeThrowNested
    (self : DllARM64EC_CppxdataUsage) : Except CppExc Bool × List String :=
  let innerTry := cppTryCatch
    (if self.m_bShouldThrow then
      (.error (.stdRuntimeError "ARM64EC nested exception"), [])
    else
      (.ok none, []))
    catchesRuntimeError
    (fun inner =>
      (.error (.stdException "ARM64EC re-throw from nested"),
        ["ARM64EC inner catch: " ++ inner.what]))
  let outerTry := cppTryCatch innerTry
    catchesStdException
    (fun outer =>
      (.ok (some false), ["ARM64EC outer catch: " ++ outer.what]))
  match outerTry with
  | (.ok (some b), out) => (.ok b, out)
  | (.ok none, out) => (.ok true, out)
  | (.error e, out) => (.error e, out)

/-- Embeds the `try` body of `ARM64EC_TestFunctionWithEH`: call
`MaybeThrow`; if it returned `false`, print and `return 1`; otherwise call
`MaybeThrowNested`; if it returned `false`, print and `return 2`; otherwise
`return 0`.  An exception escaping either call propagates out of the
body. -/
def testFunctionWithEHTryBody (testObject : DllARM64EC_CppxdataUsage) :
    Except CppExc Int × List String :=
  match testObject.MaybeThrow with
  | (.error e, out1) => (.error e, out1)
  | (.ok b1, out1) =>
    if !b1 then
      (.ok 1, out1 ++ ["ARM64EC exception was caught and handled"])
    else
      match testObject.MaybeThrowNested with
      | (.error e, out2) => (.error e, out1 ++ out2)
      | (.ok b2, out2) =>
        if !b2 then
          (.ok 2,
            out1 ++ out2 ++ ["ARM64EC nested exception was caught and handled"])
        else
          (.ok 0, out1 ++ out2)

/-- Embeds `ARM64EC_TestFunctionWithEH` with the scenario object made
explicit: the `try` body above wrapped in `catch (...)`, which catches any
escaping exception, prints, and returns `-1`. -/
def ARM64EC_TestFunctionWithEH_on (testObject : DllARM64EC_CppxdataUsage) :
    Int × List String :=
  match testFunctionWithEHTryBody testObject with
  | (.ok code, out) => (code, out)
  | (.error _, out) =>
      (-1, out ++ ["ARM64EC unexpected exception in test function"])

/-- Embeds the exported `ARM64EC_TestFunctionWithEH` itself: it constructs
`DllARM64EC_CppxdataUsage testObject;` with the default member initializer
(`m_bShouldThrow = true`) and runs the orchestration on it. -/
def ARM64EC_TestFunctionWithEH : Int × List String :=
  ARM64EC_TestFunctionWithEH_on {}

/-- Bit pattern (as a natural number below `2^64`) of a signed 64-bit value:
the two's-complement representative in `[0, 2^64)`. -/
def toBits64 (z : Int) : Nat := (z % (2 ^ 64 : Int)).toNat

/-- Signed 64-bit value denoted by a bit pattern below `2^64`. -/
def ofBits64 (n : Nat) : Int :=
  if n < 2 ^ 63 then (n : Int) else (n : Int) - 2 ^ 64

/-- Reduction of an unbounded integer to the signed 64-bit value with the
same bit pattern: this is what `long long` arithmetic produces when the
exact result overflows. -/
def int64Wrap (z : Int) : Int := ofBits64 (toBits64 z)

/-- Bitwise XOR of two signed 64-bit values, computed on their
two's-complement bit patterns (the semantics of `a ^ b` on `long long`). -/
def xor64 (a b : Int) : Int := ofBits64 (Nat.xor (toBits64 a) (toBits64 b))

/-- Embeds `ARM64EC_TestLongLong`: `return a * b + (a ^ b);` on `long
long`, with the 64-bit two's-complement wraparound of the arithmetic made
explicit.  (Reducing once at the end equals reducing after every
intermediate operation, since reduction is a ring morphism modulo
`2^64`.) -/
def ARM64EC_TestLongLong (a b : Int) : Int :=
  int64Wrap (a * b + xor64 a b)

/-- Embeds a floating-point binary multiplication as the exact rational
product passed through an abstract rounding function `rnd`, the standard
model of a correctly rounded IEEE operation on finite values. -/
def roundedMul (rnd : ℚ → ℚ) (x y : ℚ) : ℚ := rnd (x * y)

/-- Embeds a floating-point binary addition as the exact rational sum
passed through an abstract rounding function `rnd`. -/
def roundedAdd (rnd : ℚ → ℚ) (x y : ℚ) : ℚ := rnd (x + y)

/-- Embeds `ARM64EC_TestDouble`: `return x * x + y * y;` on `double`,
modelled over exact rationals with each binary operation rounded by an
abstract per-operation rounding function `rnd` (finite inputs; IEEE
non-finite values are outside this model). -/
def ARM64EC_TestDouble (rnd : ℚ → ℚ) (x y : ℚ) : ℚ :=
  roundedAdd rnd (roundedMul rnd x x) (roundedMul rnd y y)

/-- Claimed result shape of the float-pair probe, written from the spec
formula `x*x + y*y` under standard per-operation rounding. -/
def specFloatPair (rnd : ℚ → ℚ) (x y : ℚ) : ℚ :=
  rnd (rnd (x * x) + rnd (y * y))

/-- Embeds `ARM64EC_TestPointer`: addresses are modelled as natural
numbers with `0` the null pointer.  `if (ptr)` prints the diagnostic line;
the input is returned unchanged either way, and nothing is ever
dereferenced. -/
def ARM64EC_TestPointer (ptr : Nat) : Nat × List String :=
  if ptr ≠ 0 then
    (ptr, ["ARM64EC pointer test: " ++ toString ptr])
  else
    (ptr, [])

/-- Iteration values of the `for (int i = 0; i < 100; i++)` loop in
`ARM64EC_TestFunction1`. -/
def testFunction1Iters : List Int := (List.range 100).map Int.ofNat

/-- Embeds the summation loop of `ARM64EC_TestFunction1`:
`sum += i` over the loop's iteration values, starting from `0`. -/
def testFunction1Sum : Int := testFunction1Iters.foldl (fun sum i => sum + i) 0

/-- Embeds `ARM64EC_TestFunction1` as its diagnostic output: the greeting
line and the computed sum.  The function has no other effect. -/
def ARM64EC_TestFunction1 : List String :=
  ["ARM64EC Test Function 1 called",
    "ARM64EC computation result: " ++ toString testFunction1Sum]

/-- Iteration values of the `for (int i = 1; i <= 10; i++)` loop in
`ARM64EC_TestFunction2`. -/
def testFunction2Iters : List Nat := (List.range 10).map (fun i => i + 1)

/-- Embeds the running-product loop of `ARM64EC_TestFunction2`:
`result *= (double)i` over the loop's iteration values, starting from
`1.0`.  The values stay exactly representable in `double`, so the product
is modelled exactly over `ℚ`. -/
def testFunction2Result : ℚ :=
  testFunction2Iters.foldl (fun result i => result * (i : ℚ)) 1

/-- Embeds `ARM64EC_TestFunction2` as its diagnostic output. -/
def ARM64EC_TestFunction2 : List String :=
  ["ARM64EC Test Function 2 called",
    "ARM64EC factorial result: " ++ toString testFunction2Result]

/-- Helper: the bit pattern of any integer is below `2^64`. -/
theorem toBits64_lt (z : Int) : toBits64 z < 2 ^ 64 := by
  unfold toBits64
  omega

/-- Helper: the signed value of a 64-bit pattern lies in
`[-2^63, 2^63)`. -/
theorem ofBits64_range (n : Nat) (hn : n < 2 ^ 64) :
    -(2 ^ 63) ≤ ofBits64 n ∧ ofBits64 n < 2 ^ 63 := by
  unfold ofBits64
  split <;> omega

/-- Helper: 64-bit reduction preserves the residue modulo `2^64`. -/
theorem int64Wrap_emod (z : Int) : int64Wrap z % 2 ^ 64 = z % 2 ^ 64 := by
  unfold int64Wrap ofBits64 toBits64
  split <;> omega

/-- Claim C1: for every scenario object the orchestrating probe's code is
exactly one of `{0, 1, 2}` and never `-1`, with `0` exactly when both the
language-exception probe and the nested-rethrow probe complete without
triggering, `1` exactly when the language-exception probe triggers, and
`2` exactly when the first does not trigger and the nested-rethrow probe
does. -/
theorem orchestrator_code_discriminates (o : DllARM64EC_CppxdataUsage) :
    ((ARM64EC_TestFunctionWithEH_on o).1 = 0 ∨
      (ARM64EC_TestFunctionWithEH_on o).1 = 1 ∨
      (ARM64EC_TestFunctionWithEH_on o).1 = 2) ∧
    (ARM64EC_TestFunctionWithEH_on o).1 ≠ -1 ∧
    ((ARM64EC_TestFunctionWithEH_on o).1 = 0 ↔
      o.MaybeThrow.1 = .ok true ∧ o.MaybeThrowNested.1 = .ok true) ∧
    ((ARM64EC_TestFunctionWithEH_on o).1 = 1 ↔ o.MaybeThrow.1 = .ok false) ∧
    ((ARM64EC_TestFunctionWithEH_on o).1 = 2 ↔
      o.MaybeThrow.1 = .ok true ∧ o.MaybeThrowNested.1 = .ok false) := by
  obtain ⟨b⟩ := o
  cases b <;> decide

/-- Claim C2: with the trigger flag clear each scenario operation returns
`true`, with it set each returns `false`, and in both cases the result is
`.ok`: no exception or fault escapes the operation boundary. -/
theorem scenario_operations_contained (o : DllARM64EC_CppxdataUsage) :
    o.MaybeThrow.1 = Except.ok (!o.m_bShouldThrow) ∧
    o.MaybeThrowWithSEH.result = Except.ok (!o.m_bShouldThrow) ∧
    o.MaybeThrowNested.1 = Except.ok (!o.m_bShouldThrow) := by
  obtain ⟨b⟩ := o
  cases b <;> decide

/-- Claim C3: the orchestrating probe returns `1` on an object with the
trigger flag set (the language-exception probe is checked first) and `0`
on an object with the flag clear. -/
theorem orchestrator_flag_set_one_clear_zero :
    (ARM64EC_TestFunctionWithEH_on ⟨true⟩).1 = 1 ∧
    (ARM64EC_TestFunctionWithEH_on ⟨false⟩).1 = 0 := by
  decide

/-- Claim C4: for all representable 64-bit inputs the integer-pair probe
returns the signed 64-bit value (in range, wrapping on overflow) congruent
to `a * b + (a XOR b)` modulo `2^64`. -/
theorem testLongLong_two_complement (a b : Int)
    (ha : -(2 ^ 63) ≤ a ∧ a < 2 ^ 63) (hb : -(2 ^ 63) ≤ b ∧ b < 2 ^ 63) :
    (-(2 ^ 63) ≤ ARM64EC_TestLongLong a b ∧
      ARM64EC_TestLongLong a b < 2 ^ 63) ∧
    ARM64EC_TestLongLong a b % 2 ^ 64 = (a * b + xor64 a b) % 2 ^ 64 := by
  constructor
  · exact ofBits64_range _ (toBits64_lt _)
  · exact int64Wrap_emod _

/-- Witness for C4 at an overflowing pair: `a = 2^62`, `b = 3`, whose
product exceeds the signed 64-bit range. -/
theorem testLongLong_two_complement_witness :
    ((-(2 ^ 63) ≤ (2 ^ 62 : Int) ∧ (2 ^ 62 : Int) < 2 ^ 63) ∧
      (-(2 ^ 63) ≤ (3 : Int) ∧ (3 : Int) < 2 ^ 63)) ∧
    ((-(2 ^ 63) ≤ ARM64EC_TestLongLong (2 ^ 62) 3 ∧
        ARM64EC_TestLongLong (2 ^ 62) 3 < 2 ^ 63) ∧
      ARM64EC_TestLongLong (2 ^ 62) 3 % 2 ^ 64 =
        (2 ^ 62 * 3 + xor64 (2 ^ 62) 3) % 2 ^ 64) :=
  ⟨⟨⟨by decide, by decide⟩, ⟨by decide, by decide⟩⟩,
    testLongLong_two_complement (2 ^ 62) 3
      ⟨by decide, by decide⟩ ⟨by decide, by decide⟩⟩

/-- Claim C5: the pointer probe returns its input unchanged for every
address including null, and emits its diagnostic line exactly for non-null
inputs (the null case performs nothing that could fault). -/
theorem testPointer_identity (p : Nat) :
    (ARM64EC_TestPointer p).1 = p ∧
    ((ARM64EC_TestPointer p).2 = [] ↔ p = 0) := by
  unfold ARM64EC_TestPointer
  by_cases h : p = 0 <;> simp [h]

/-- Claim C6: the outer SEH handler never runs; the inner handler runs
exactly when the trigger flag is set (and then the probe reports and
returns `false`), and with the flag clear no fault occurs, the local byte
array is read and reported, and the probe returns `true`. -/
theorem seh_outer_handler_never_runs (o : DllARM64EC_CppxdataUsage) :
    o.MaybeThrowWithSEH.outerHandlerRan = false ∧
    o.MaybeThrowWithSEH.innerHandlerRan = o.m_bShouldThrow ∧
    o.MaybeThrowWithSEH.result = Except.ok (!o.m_bShouldThrow) ∧
    o.MaybeThrowWithSEH.output =
      (if o.m_bShouldThrow then ["ARM64EC SEH inner exception handled"]
        else ["ARM64EC SEH no exception: 0"]) := by
  obtain ⟨b⟩ := o
  cases b <;> decide

/-- Claim C7: every operation's whole observable outcome (result and
diagnostic output) is a pure function of the trigger flag's value at call
time; the operations neither take nor produce any other state. -/
theorem scenario_outcome_pure_in_flag (o₁ o₂ : DllARM64EC_CppxdataUsage)
    (h : o₁.m_bShouldThrow = o₂.m_bShouldThrow) :
    o₁.MaybeThrow = o₂.MaybeThrow ∧
    o₁.MaybeThrowWithSEH = o₂.MaybeThrowWithSEH ∧
    o₁.MaybeThrowNested = o₂.MaybeThrowNested := by
  obtain ⟨b₁⟩ := o₁
  obtain ⟨b₂⟩ := o₂
  obtain rfl : b₁ = b₂ := h
  exact ⟨rfl, rfl, rfl⟩

/-- Witness for C7 on two flag-equal objects. -/
theorem scenario_outcome_pure_in_flag_witness :
    (DllARM64EC_CppxdataUsage.mk true).m_bShouldThrow =
      (DllARM64EC_CppxdataUsage.mk true).m_bShouldThrow ∧
    ((DllARM64EC_CppxdataUsage.mk true).MaybeThrow =
        (DllARM64EC_CppxdataUsage.mk true).MaybeThrow ∧
      (DllARM64EC_CppxdataUsage.mk true).MaybeThrowWithSEH =
        (DllARM64EC_CppxdataUsage.mk true).MaybeThrowWithSEH ∧
      (DllARM64EC_CppxdataUsage.mk true).MaybeThrowNested =
        (DllARM64EC_CppxdataUsage.mk true).MaybeThrowNested) :=
  ⟨rfl, scenario_outcome_pure_in_flag ⟨true⟩ ⟨true⟩ rfl⟩

/-- Claim C8: under any per-operation rounding function the float-pair
probe computes exactly the spec formula `x*x + y*y` with each operation
rounded, and with exact arithmetic it is exactly `x*x + y*y`; non-finite
inputs are outside the model, matching their unspecified status. -/
theorem testDouble_sum_of_squares (rnd : ℚ → ℚ) (x y : ℚ) :
    ARM64EC_TestDouble rnd x y = specFloatPair rnd x y ∧
    ARM64EC_TestDouble id x y = x * x + y * y :=
  ⟨rfl, rfl⟩

set_option maxRecDepth 4000 in
/-- Claim C9: the two no-argument probes are bounded total computations:
the first runs exactly 100 iterations and sums the integers 0 through 99
to 4950, the second runs exactly 10 iterations and multiplies the integers
1 through 10 to 3628800. -/
theorem no_arg_probes_bounded :
    testFunction1Iters.length = 100 ∧ testFunction1Sum = 4950 ∧
    testFunction2Iters.length = 10 ∧ testFunction2Result = 3628800 := by
  refine ⟨by decide, by decide, by decide, ?_⟩
  norm_num [testFunction2Result, testFunction2Iters, List.range_succ]

/-- Claim C10: the trigger flag's default member initializer is `true`, the
exported orchestrating probe constructs its scenario object with that
default, and therefore every invocation returns exactly `1` — the codes
`0`, `2` and `-1` are unreachable in the shipped build. -/
theorem shipped_orchestrator_always_one :
    ({} : DllARM64EC_CppxdataUsage).m_bShouldThrow = true ∧
    ARM64EC_TestFunctionWithEH.1 = 1 ∧
    ARM64EC_TestFunctionWithEH.1 ≠ 0 ∧
    ARM64EC_TestFunctionWithEH.1 ≠ 2 ∧
    ARM64EC_TestFunctionWithEH.1 ≠ -1 := by
  decide
